import Mathlib

/-!
Verification of the Smart Content Fallback & Delivery Queue subsystem of the
USFM content-ingestion pipeline.

The definitions below are a shallow embedding of the Python sources:
  - src/ingestor/database.py           (dedup gate: generate_content_hash,
                                        post_exists, insert_post, insert_delivery)
  - src/ingestor/smart_content_manager.py  (fallback engine:
                                        get_smart_content_for_section,
                                        _get_existing_section_articles)
  - src/ingestor/delivery_manager.py   (delivery factory: create_web_delivery,
                                        create_x_delivery, process_deliveries,
                                        _should_tweet_post)
  - src/ingestor/delivery_worker.py    (delivery worker: get_queued_deliveries,
                                        process_web_delivery, process_x_delivery,
                                        update_delivery_status, process_delivery,
                                        process_all_deliveries)

Conventions of the embedding:
  - Python strings are Lean Strings; str.lower/str.upper are modelled
    character-wise on the ASCII letters (the data flowing through the dedup
    gate is ASCII URLs and titles); str.strip removes ASCII whitespace from
    both ends, as Python does.
  - hashlib.sha256(...).hexdigest() is modelled by a bit-faithful SHA-256
    over byte lists (Nat arithmetic mod 2^32), checked against the NIST
    test vectors.
  - The Supabase posts/deliveries tables are Lean lists of records; a select
    with eq/lt/gte filters, order('created_at', desc=True) and limit(n) is
    filter + sort-descending + take.  A call to execute() that may raise is
    modelled with Except Unit.
  - Network sinks (revalidation webhook, X client) are Bool-valued oracles
    passed as parameters.
  - datetime.now() is a parameter now : Int (seconds); timedelta(hours=2) is
    2*3600 and timedelta(days=7) is 7*86400.
-/

namespace USFM

/-! ## Python string primitives -/

/-- Model of Python str.lower on one character (ASCII case mapping). -/
def pyLowerChar (c : Char) : Char :=
  if 65 ≤ c.toNat ∧ c.toNat ≤ 90 then Char.ofNat (c.toNat + 32) else c

/-- Model of Python str.upper on one character (ASCII case mapping). -/
def pyUpperChar (c : Char) : Char :=
  if 97 ≤ c.toNat ∧ c.toNat ≤ 122 then Char.ofNat (c.toNat - 32) else c

/-- Model of Python str.lower. -/
def pyLower (s : String) : String := ⟨s.data.map pyLowerChar⟩

/-- Model of Python str.upper. -/
def pyUpper (s : String) : String := ⟨s.data.map pyUpperChar⟩

/-- Characters removed by Python str.strip (ASCII whitespace). -/
def isPySpace (c : Char) : Bool :=
  c == ' ' || c == '\t' || c == '\n' || c == '\r' || c == '\x0b' || c == '\x0c'

/-- Model of Python str.strip on a character list: drop whitespace from both ends. -/
def pyStripList (l : List Char) : List Char :=
  ((l.dropWhile isPySpace).reverse.dropWhile isPySpace).reverse

/-- Model of Python str.strip. -/
def pyStrip (s : String) : String := ⟨pyStripList s.data⟩

/-- UTF-8 encoding of one character, as Python str.encode produces. -/
def utf8Char (c : Char) : List Nat :=
  let n := c.toNat
  if n < 128 then [n]
  else if n < 2048 then [192 ||| (n >>> 6), 128 ||| (n &&& 63)]
  else if n < 65536 then
    [224 ||| (n >>> 12), 128 ||| ((n >>> 6) &&& 63), 128 ||| (n &&& 63)]
  else
    [240 ||| (n >>> 18), 128 ||| ((n >>> 12) &&& 63),
     128 ||| ((n >>> 6) &&& 63), 128 ||| (n &&& 63)]

/-- Model of Python str.encode(): the UTF-8 byte sequence of a string. -/
def utf8Bytes (s : String) : List Nat := (s.data.map utf8Char).flatten

/-! ## SHA-256 (model of hashlib.sha256)

A bit-faithful implementation of FIPS 180-4 SHA-256 over byte lists, with
32-bit words represented as Nat reduced mod 2^32. -/

/-- Truncate to a 32-bit word. -/
def w32 (n : Nat) : Nat := n % 4294967296

/-- Rotate a 32-bit word right by k bits. -/
def rotr32 (k x : Nat) : Nat := w32 ((x >>> k) ||| (x <<< (32 - k)))

def smallSigma0 (x : Nat) : Nat := (rotr32 7 x) ^^^ (rotr32 18 x) ^^^ (x >>> 3)
def smallSigma1 (x : Nat) : Nat := (rotr32 17 x) ^^^ (rotr32 19 x) ^^^ (x >>> 10)
def bigSigma0 (x : Nat) : Nat := (rotr32 2 x) ^^^ (rotr32 13 x) ^^^ (rotr32 22 x)
def bigSigma1 (x : Nat) : Nat := (rotr32 6 x) ^^^ (rotr32 11 x) ^^^ (rotr32 25 x)

/-- The 64 SHA-256 round constants (decimal). -/
def sha256K : List Nat :=
  [1116352408, 1899447441, 3049323471, 3921009573, 961987163, 1508970993,
   2453635748, 2870763221, 3624381080, 310598401, 607225278, 1426881987,
   1925078388, 2162078206, 2614888103, 3248222580, 3835390401, 4022224774,
   264347078, 604807628, 770255983, 1249150122, 1555081692, 1996064986,
   2554220882, 2821834349, 2952996808, 3210313671, 3336571891, 3584528711,
   113926993, 338241895, 666307205, 773529912, 1294757372, 1396182291,
   1695183700, 1986661051, 2177026350, 2456956037, 2730485921, 2820302411,
   3259730800, 3345764771, 3516065817, 3600352804, 4094571909, 275423344,
   430227734, 506948616, 659060556, 883997877, 958139571, 1322822218,
   1537002063, 1747873779, 1955562222, 2024104815, 2227730452, 2361852424,
   2428436474, 2756734187, 3204031479, 3329325298]

/-- The SHA-256 initial hash value (decimal). -/
def sha256H0 : List Nat :=
  [1779033703, 3144134277, 1013904242, 2773480762,
   1359893119, 2600822924, 528734635, 1541459225]

/-- Big-endian byte decomposition of a value into n bytes. -/
def bytesBE : Nat → Nat → List Nat
  | 0, _ => []
  | n+1, v => bytesBE n (v / 256) ++ [v % 256]

/-- SHA-256 message padding: a 0x80 byte, zeros to 56 mod 64, then the
bit length as 8 big-endian bytes. -/
def sha256Pad (msg : List Nat) : List Nat :=
  msg ++ [128] ++ List.replicate ((119 - (msg.length % 64)) % 64) 0
      ++ bytesBE 8 (8 * msg.length)

/-- Group bytes into big-endian 32-bit words. -/
def toWords : List Nat → List Nat
  | b0 :: b1 :: b2 :: b3 :: rest =>
    (((b0 * 256 + b1) * 256 + b2) * 256 + b3) :: toWords rest
  | _ => []

/-- Fuel-driven grouping of a word list into blocks of 16. -/
def chunks16Aux : Nat → List Nat → List (List Nat)
  | 0, _ => []
  | _, [] => []
  | fuel+1, x :: rest => (x :: rest.take 15) :: chunks16Aux fuel (rest.drop 15)

/-- Group a word list into blocks of 16 words. -/
def chunks16 (l : List Nat) : List (List Nat) := chunks16Aux l.length l

/-- One step of the SHA-256 message-schedule extension: append word
W[i] = sigma1 W[i-2] + W[i-7] + sigma0 W[i-15] + W[i-16]. -/
def schedRound (w : List Nat) : List Nat :=
  let i := w.length
  let wm15 := w.getD (i - 15) 0
  let wm2 := w.getD (i - 2) 0
  let wm16 := w.getD (i - 16) 0
  let wm7 := w.getD (i - 7) 0
  w ++ [w32 (smallSigma1 wm2 + wm7 + smallSigma0 wm15 + wm16)]

/-- One SHA-256 compression round on the 8-word working state, where kw is
K[i] + W[i] already reduced mod 2^32. -/
def compressStep (st : List Nat) (kw : Nat) : List Nat :=
  match st with
  | [a, b, c, d, e, f, g, h] =>
    let s1 := bigSigma1 e
    let ch := (e &&& f) ^^^ ((e ^^^ 4294967295) &&& g)
    let temp1 := w32 (h + s1 + ch + kw)
    let s0 := bigSigma0 a
    let maj := (a &&& b) ^^^ (a &&& c) ^^^ (b &&& c)
    let temp2 := w32 (s0 + maj)
    [w32 (temp1 + temp2), a, b, c, w32 (d + temp1), e, f, g]
  | other => other

/-- Process one 16-word block: extend the schedule to 64 words, run 64
compression rounds, and add the result into the running hash. -/
def processBlock (h : List Nat) (block : List Nat) : List Nat :=
  let w := schedRound^[48] block
  let kw := (sha256K.zip w).map (fun p => w32 (p.1 + p.2))
  let st := kw.foldl compressStep h
  (h.zip st).map (fun p => w32 (p.1 + p.2))

/-- SHA-256 digest of a byte list, as eight 32-bit words. -/
def sha256Words (msg : List Nat) : List Nat :=
  (chunks16 (toWords (sha256Pad msg))).foldl processBlock sha256H0

/-- Lower-case hex digit for a nibble. -/
def hexDigit (n : Nat) : Char := if n < 10 then Char.ofNat (48 + n) else Char.ofNat (87 + n)

/-- Lower-case hex rendering of one 32-bit word. -/
def hexWord (w : Nat) : List Char :=
  ((bytesBE 4 w).map (fun b => [hexDigit (b / 16), hexDigit (b % 16)])).flatten

/-- Model of hashlib hexdigest(): the digest words as a lower-case hex string. -/
def hexdigest (ws : List Nat) : String := ⟨(ws.map hexWord).flatten⟩

/-! ## Deduplication gate (src/ingestor/database.py) -/

/-- DatabaseManager.generate_content_hash: sha256 of the lower-cased,
stripped concatenation of source URL and title, as a hex digest. -/
def generate_content_hash (source_url : String) (title : String) : String :=
  hexdigest (sha256Words (utf8Bytes (pyStrip (pyLower (source_url ++ title)))))

/-- A row returned by a Supabase insert on the posts table (only the id is
read by the code under verification). -/
structure InsertedRow where
  id : String
deriving DecidableEq

/-- The candidate-post fields read by the dedup path of insert_post. -/
structure PostInput where
  source_url : String
  title : String
deriving DecidableEq

/-- The persistent-store operations used by post_exists / insert_post.
selectIdsByHash models posts.select('id').eq('content_hash', h).execute()
(returning the matching ids, or raising); insertPost models
posts.insert(post_data).execute() for a candidate carrying the given
content hash. -/
structure StoreOps where
  selectIdsByHash : String → Except Unit (List String)
  insertPost : PostInput × String → Except Unit (List InsertedRow)

/-- DatabaseManager.post_exists: true when the store holds a post with the
given content hash; an exception from the query is caught, logged, and
reported as False. -/
def post_exists (ops : StoreOps) (content_hash : String) : Bool :=
  match ops.selectIdsByHash content_hash with
  | .ok data => decide (0 < data.length)
  | .error _ => false

/-- DatabaseManager.insert_post: compute the content hash, skip (None) when
post_exists reports a duplicate, otherwise insert and return the new row id;
any exception yields None. -/
def insert_post (ops : StoreOps) (post_data : PostInput) : Option String :=
  if post_exists ops (generate_content_hash post_data.source_url post_data.title) then
    none
  else
    match ops.insertPost
        (post_data, generate_content_hash post_data.source_url post_data.title) with
    | .ok (row :: _) => some row.id
    | .ok [] => none
    | .error _ => none

/-! ## Fallback engine (src/ingestor/smart_content_manager.py) -/

/-- A row of the posts table, restricted to the columns the fallback engine
filters on, plus the identifier. -/
structure Post where
  id : Nat
  section_slug : String
  status : String
  created_at : Int
deriving DecidableEq

/-- Lower bound of the exclusion window: datetime.now() - timedelta(hours=2). -/
def exclusionCutoff (now : Int) : Int := now - 2 * 3600

/-- Lower bound of the retention window: datetime.now() - timedelta(days=7). -/
def retentionCutoff (now : Int) : Int := now - 7 * 86400

/-- The filter of _get_existing_section_articles: same section, published,
created strictly before the 2-hour exclusion cutoff and at or after the
7-day retention cutoff. -/
def fallbackWindow (now : Int) (sectionSlug : String) (p : Post) : Bool :=
  p.section_slug == sectionSlug && p.status == "published"
    && decide (p.created_at < exclusionCutoff now)
    && decide (retentionCutoff now ≤ p.created_at)

/-- Insert a post into a list kept in descending created_at order. -/
def insertDesc (p : Post) : List Post → List Post
  | [] => [p]
  | q :: rest =>
      if q.created_at < p.created_at then p :: q :: rest else q :: insertDesc p rest

/-- Model of the store's order('created_at', desc=True): sort rows by
created_at, most recent first (insertion sort, so it computes in the kernel). -/
def sortByCreatedDesc (l : List Post) : List Post := l.foldr insertDesc []

/-- SmartContentManager._get_existing_section_articles: query the posts table
for published posts of the section inside the fallback window, most recent
first, capped at 10; an exception from the store yields the empty list. -/
def get_existing_section_articles (now : Int) (posts : Except Unit (List Post))
    (section_slug : String) : List Post :=
  match posts with
  | .error _ => []
  | .ok rows => (sortByCreatedDesc (rows.filter (fallbackWindow now section_slug))).take 10

/-- SmartContentManager.section_thresholds together with the dict.get
default of 3 used by get_smart_content_for_section. -/
def section_thresholds (s : String) : Nat :=
  if s == "ma" then 3
  else if s == "lbo" then 3
  else if s == "reg" then 3
  else if s == "cap" then 5
  else if s == "rumor" then 2
  else if s == "all" then 30
  else 3

/-- SmartContentManager.get_smart_content_for_section: if enough new
articles, the first threshold of them; if some, new articles followed by
fallbacks up to the threshold; if none, up to threshold fallbacks; the empty
list when nothing is available.  The posts argument is the store snapshot
(or a raising store). -/
def get_smart_content_for_section (now : Int) (posts : Except Unit (List Post))
    (section_slug : String) (new_articles : List Post) : List Post :=
  if section_thresholds section_slug ≤ new_articles.length then
    new_articles.take (section_thresholds section_slug)
  else if ¬ new_articles.isEmpty then
    new_articles ++ (get_existing_section_articles now posts section_slug).take
        (section_thresholds section_slug - new_articles.length)
  else if ¬ (get_existing_section_articles now posts section_slug).isEmpty then
    (get_existing_section_articles now posts section_slug).take
        (section_thresholds section_slug)
  else []

/-! ## Delivery factory (src/ingestor/delivery_manager.py, database.py) -/

/-- The post_data fields read by the delivery factory.  A missing or None
article_slug is modelled by the empty string (both are falsy in Python). -/
structure PostData where
  title : String
  summary : String := ""
  section_slug : String := ""
  origin_type : String := ""
  article_slug : String := ""
  source_url : String := ""
deriving DecidableEq

/-- A delivery payload dict.  The web payload populates action/paths, the X
payload populates text/status; absent keys are modelled by the defaults the
worker's dict.get calls supply. -/
structure Payload where
  action : String := ""
  paths : List String := []
  text : String := ""
  status : String := ""
deriving DecidableEq

/-- DeliveryManager.create_web_delivery: revalidate the homepage and the
post's section page. -/
def create_web_delivery (post_data : PostData) : Payload :=
  { action := "revalidate", paths := ["/", "/section/" ++ post_data.section_slug] }

/-- DeliveryManager._should_tweet_post: requires the X feature flag, an
upper-cased origin type of SCRAPED or PEWIRE, and a truthy article_slug. -/
def should_tweet_post (x_enabled : Bool) (post_data : PostData) : Bool :=
  if !x_enabled then false
  else
    let origin_type := pyUpper post_data.origin_type
    let article_slug := post_data.article_slug
    if origin_type == "SCRAPED" && !(article_slug == "") then true
    else if origin_type == "PEWIRE" && !(article_slug == "") then true
    else false

/-- DeliveryManager.create_x_delivery: None unless _should_tweet_post holds;
otherwise the tweet text built from title, optional short summary, fixed
hashtags and a URL, truncated to 280 characters, with the embedded status
field set to held when the flag is off and queued otherwise. -/
def create_x_delivery (x_enabled : Bool) (post_data : PostData) : Option Payload :=
  if !(should_tweet_post x_enabled post_data) then none
  else
    let title := post_data.title
    let summary := post_data.summary
    let url :=
      if !(post_data.article_slug == "") then
        "https://www.usfinancemoves.com/article/" ++ post_data.article_slug
      else post_data.source_url
    let hashtags := "#specialsituations #MA #PE #news #viral #finance"
    let t0 := "📈 " ++ title
    let t1 := if !(summary == "") && summary.length < 80 then t0 ++ "\n\n" ++ summary else t0
    let t2 := if t1.length + hashtags.length + 25 < 280 then t1 ++ "\n\n" ++ hashtags else t1
    let t3 := if t2.length + 25 < 280 then t2 ++ "\n\n" ++ url else t2
    let tweet_text := if 280 < t3.length then t3.take 277 ++ "..." else t3
    some { text := tweet_text, status := if !x_enabled then "held" else "queued" }

/-- One delivery spec produced by DeliveryManager.process_deliveries. -/
structure DeliverySpec where
  channel : String
  payload : Payload
deriving DecidableEq

/-- DeliveryManager.process_deliveries: always a web delivery, plus an X
delivery exactly when create_x_delivery qualifies the post. -/
def process_deliveries (x_enabled : Bool) (_post_id : String)
    (post_data : PostData) : List DeliverySpec :=
  let base := [{ channel := "web", payload := create_web_delivery post_data }]
  match create_x_delivery x_enabled post_data with
  | some x_payload => base ++ [{ channel := "x", payload := x_payload }]
  | none => base

/-- A row of the deliveries table as DatabaseManager.insert_delivery writes it. -/
structure DeliveryRow where
  post_id : String
  channel : String
  payload : Payload
  status : String
deriving DecidableEq

/-- DatabaseManager.insert_delivery: the persisted record always starts with
status queued, whatever the payload holds. -/
def insert_delivery_row (post_id : String) (channel : String)
    (payload : Payload) : DeliveryRow :=
  { post_id := post_id, channel := channel, payload := payload, status := "queued" }

/-! ## Delivery worker (src/ingestor/delivery_worker.py) -/

/-- A row of the deliveries table as the worker sees it. -/
structure Delivery where
  id : Nat
  channel : String
  payload : Payload
  status : String
  attempts : Nat
  last_error : Option String := none
deriving DecidableEq

/-- DeliveryWorker.get_queued_deliveries: select the rows with status queued. -/
def get_queued_deliveries (table : List Delivery) : List Delivery :=
  table.filter (fun d => d.status == "queued")

/-- DeliveryWorker.process_web_delivery: False when the payload has no
paths, otherwise the revalidation sink's verdict. -/
def process_web_delivery (webSink : List String → Bool) (delivery : Delivery) : Bool :=
  let paths := delivery.payload.paths
  if paths.isEmpty then false else webSink paths

/-- DeliveryWorker.process_x_delivery: False when the payload has no text,
otherwise the X sink's verdict. -/
def process_x_delivery (xSink : String → Bool) (delivery : Delivery) : Bool :=
  let text := delivery.payload.text
  if text == "" then false else xSink text

/-- DeliveryWorker.update_delivery_status: read the current attempts of the
row with the given id, then set status, attempts+1 and (when present) the
error message on that row.  When no row matches, the IndexError is caught
and the table is unchanged. -/
def update_delivery_status (table : List Delivery) (delivery_id : Nat)
    (status : String) (error_message : Option String) : List Delivery :=
  match (table.filter (fun r => r.id == delivery_id)).head? with
  | none => table
  | some row =>
      table.map (fun r =>
        if r.id == delivery_id then
          { r with
              status := status,
              attempts := row.attempts + 1,
              last_error :=
                match error_message with
                | some e => some e
                | none => r.last_error }
        else r)

/-- DeliveryWorker.process_delivery: dispatch on the channel (unknown
channels are logged and left untouched); on success mark sent; on failure
mark failed with the max-retries message when the snapshot attempt count
has reached 5, else re-queue with a retry message. -/
def process_delivery (webSink : List String → Bool) (xSink : String → Bool)
    (table : List Delivery) (delivery : Delivery) : List Delivery :=
  let outcome :=
    if delivery.channel == "web" then some (process_web_delivery webSink delivery)
    else if delivery.channel == "x" then some (process_x_delivery xSink delivery)
    else none
  match outcome with
  | none => table
  | some success =>
      if success then
        update_delivery_status table delivery.id "sent" none
      else if 5 ≤ delivery.attempts then
        update_delivery_status table delivery.id "failed" (some "Max retries exceeded")
      else
        update_delivery_status table delivery.id "queued" (some "Retry scheduled")

/-- DeliveryWorker.process_all_deliveries: fetch the queued snapshot and
process each record in order against the live table. -/
def process_all_deliveries (webSink : List String → Bool) (xSink : String → Bool)
    (table : List Delivery) : List Delivery :=
  (get_queued_deliveries table).foldl (process_delivery webSink xSink) table

/-! ## Helper lemmas -/

theorem char_toNat_ofNat (n : Nat) (h : n < 55296) : (Char.ofNat n).toNat = n := by
  unfold Char.ofNat
  rw [dif_pos (Or.inl h)]
  rfl

theorem char_ofNat_toNat (c : Char) : Char.ofNat c.toNat = c := by
  have h : c.toNat.isValidChar := c.valid
  unfold Char.ofNat
  rw [dif_pos h]
  rfl

theorem pyLowerChar_pyUpperChar (c : Char) :
    pyLowerChar (pyUpperChar c) = pyLowerChar c := by
  unfold pyUpperChar pyLowerChar
  by_cases h : 97 ≤ c.toNat ∧ c.toNat ≤ 122
  · rw [if_pos h]
    have hv : (Char.ofNat (c.toNat - 32)).toNat = c.toNat - 32 :=
      char_toNat_ofNat _ (by omega)
    rw [if_pos (by omega :
        65 ≤ (Char.ofNat (c.toNat - 32)).toNat ∧ (Char.ofNat (c.toNat - 32)).toNat ≤ 90)]
    rw [if_neg (by omega : ¬(65 ≤ c.toNat ∧ c.toNat ≤ 90))]
    rw [hv]
    have h32 : c.toNat - 32 + 32 = c.toNat := by omega
    rw [h32, char_ofNat_toNat]
  · rw [if_neg h]

theorem insertDesc_perm (p : Post) (l : List Post) :
    (insertDesc p l).Perm (p :: l) := by
  induction l with
  | nil => exact List.Perm.refl _
  | cons q rest ih =>
    unfold insertDesc
    split
    · exact List.Perm.refl _
    · exact (ih.cons q).trans (List.Perm.swap p q rest)

theorem sortByCreatedDesc_perm (l : List Post) : (sortByCreatedDesc l).Perm l := by
  induction l with
  | nil => exact List.Perm.refl _
  | cons p rest ih =>
    unfold sortByCreatedDesc at *
    simp only [List.foldr_cons]
    exact (insertDesc_perm p _).trans (ih.cons p)

theorem length_sortByCreatedDesc (l : List Post) :
    (sortByCreatedDesc l).length = l.length :=
  (sortByCreatedDesc_perm l).length_eq

theorem mem_sortByCreatedDesc {x : Post} {l : List Post} :
    x ∈ sortByCreatedDesc l ↔ x ∈ l :=
  (sortByCreatedDesc_perm l).mem_iff

theorem threshold_le_ten (s : String) (hs : s ≠ "all") : section_thresholds s ≤ 10 := by
  unfold section_thresholds
  split_ifs with h1 h2 h3 h4 h5 h6
  all_goals first
  | omega
  | exact absurd (beq_iff_eq.mp h6) hs

theorem threshold_pos (s : String) : 0 < section_thresholds s := by
  unfold section_thresholds
  split_ifs <;> omega

theorem length_existing (now : Int) (rows : List Post) (s : String) :
    (get_existing_section_articles now (.ok rows) s).length
      = min 10 (rows.filter (fallbackWindow now s)).length := by
  simp [get_existing_section_articles, length_sortByCreatedDesc, Nat.min_comm]

/-! ## Claim theorems -/

/-- C1: for every section s (the homepage key "all" is not a section) with
threshold T and every new_posts list, populate returns exactly
min(T, len(new_posts) + available_fallbacks) posts, where the available
fallbacks are the store's published posts for s inside the fallback window;
in particular a store holding at least T such posts fills the section
exactly to T from no new posts. -/
theorem C1_fallback_floor (now : Int) (rows : List Post) (s : String)
    (new_articles : List Post) (hs : s ≠ "all") :
    (get_smart_content_for_section now (.ok rows) s new_articles).length
        = min (section_thresholds s)
            (new_articles.length + (rows.filter (fallbackWindow now s)).length)
    ∧ (section_thresholds s ≤ (rows.filter (fallbackWindow now s)).length →
        (get_smart_content_for_section now (.ok rows) s []).length
          = section_thresholds s) := by
  have hT := threshold_le_ten s hs
  have hex := length_existing now rows s
  constructor
  · unfold get_smart_content_for_section
    by_cases h1 : section_thresholds s ≤ new_articles.length
    · rw [if_pos h1]
      simp only [List.length_take]
      omega
    · rw [if_neg h1]
      by_cases h2 : new_articles.isEmpty
      · have hnil : new_articles = [] := List.isEmpty_iff.mp h2
        subst hnil
        simp only [List.isEmpty_nil, not_true, if_false, List.length_nil]
        by_cases h3 : (get_existing_section_articles now (.ok rows) s).isEmpty
        · have hz : (get_existing_section_articles now (.ok rows) s) = [] :=
            List.isEmpty_iff.mp h3
          rw [if_neg (by simp [h3])]
          rw [hz] at hex
          simp only [List.length_nil] at hex ⊢
          omega
        · rw [if_pos (by simp [h3])]
          simp only [List.length_take]
          omega
      · rw [if_pos (by simp [h2])]
        have hpos : 0 < new_articles.length := by
          cases new_articles with
          | nil => simp at h2
          | cons a l => simp
        simp only [List.length_append, List.length_take]
        omega
  · intro hfull
    have hTpos := threshold_pos s
    unfold get_smart_content_for_section
    rw [if_neg (by simp only [List.length_nil]; omega)]
    rw [if_neg (by simp)]
    have hlen : (get_existing_section_articles now (.ok rows) s).length
        = min 10 (rows.filter (fallbackWindow now s)).length := hex
    by_cases h3 : (get_existing_section_articles now (.ok rows) s).isEmpty
    · exfalso
      have hz : (get_existing_section_articles now (.ok rows) s) = [] :=
        List.isEmpty_iff.mp h3
      rw [hz] at hlen
      simp only [List.length_nil] at hlen
      omega
    · rw [if_pos (by simp [h3])]
      simp only [List.length_take]
      omega

/-- C1 witness: the section ma (threshold 3) with no new posts and three
published in-window store posts yields exactly three posts. -/
theorem C1_fallback_floor_witness :
    (("ma" : String) ≠ "all")
    ∧ (get_smart_content_for_section 1000000
          (.ok [⟨1, "ma", "published", 989200⟩, ⟨2, "ma", "published", 989100⟩,
                ⟨3, "ma", "published", 989000⟩]) "ma" []).length
        = min (section_thresholds "ma")
            (([] : List Post).length
              + ([⟨1, "ma", "published", 989200⟩, ⟨2, "ma", "published", 989100⟩,
                  ⟨3, "ma", "published", 989000⟩].filter
                    (fallbackWindow 1000000 "ma")).length)
    ∧ section_thresholds "ma"
        ≤ ([⟨1, "ma", "published", 989200⟩, ⟨2, "ma", "published", 989100⟩,
            ⟨3, "ma", "published", 989000⟩].filter (fallbackWindow 1000000 "ma")).length
    ∧ (get_smart_content_for_section 1000000
          (.ok [⟨1, "ma", "published", 989200⟩, ⟨2, "ma", "published", 989100⟩,
                ⟨3, "ma", "published", 989000⟩]) "ma" []).length
        = section_thresholds "ma" := by
  refine ⟨by decide, ?_, by decide, ?_⟩
  · exact (C1_fallback_floor 1000000 _ "ma" [] (by decide)).1
  · exact (C1_fallback_floor 1000000 _ "ma" [] (by decide)).2 (by decide)

/-- C8: when the fallback fetch raises, the engine degrades to the new
posts it was given, capped at the threshold, instead of propagating. -/
theorem C8_store_failure_degrades (now : Int) (s : String) (new_articles : List Post) :
    get_smart_content_for_section now (.error ()) s new_articles
      = new_articles.take (section_thresholds s) := by
  unfold get_smart_content_for_section
  by_cases h1 : section_thresholds s ≤ new_articles.length
  · rw [if_pos h1]
  · rw [if_neg h1]
    by_cases h2 : new_articles.isEmpty
    · have hnil : new_articles = [] := List.isEmpty_iff.mp h2
      subst hnil
      simp [get_existing_section_articles]
    · rw [if_pos (by simp [h2])]
      have : get_existing_section_articles now (.error ()) s = [] := rfl
      rw [this]
      simp only [List.take_nil, List.append_nil]
      exact (List.take_of_length_le (by omega)).symm

/-- C6 counterexample: populate does not deduplicate the new posts against
the fetched fallbacks.  Passing a post that also sits in the store inside
the fallback window (here id 7, created three hours ago) makes the same
identifier appear twice in the result, refuting the claim for arbitrary
new_posts. -/
theorem C6_counterexample :
    ¬ ((get_smart_content_for_section 1000000
          (.ok [⟨7, "ma", "published", 989200⟩]) "ma"
          [⟨7, "ma", "published", 989200⟩]).map Post.id).Nodup := by
  decide

/-- C6 amended: no post identifier appears twice in the result of populate,
provided the new posts carry distinct ids, the store rows in the fallback
window carry distinct ids, every new post was created inside the 2-hour
exclusion window, and a new post sharing an id with a store row has the
same creation time (the new list is a snapshot of store rows). -/
theorem C6_no_double_count (now : Int) (rows : List Post) (s : String)
    (new_articles : List Post)
    (h1 : (new_articles.map Post.id).Nodup)
    (h2 : ((rows.filter (fallbackWindow now s)).map Post.id).Nodup)
    (h3 : ∀ p ∈ new_articles, exclusionCutoff now ≤ p.created_at)
    (h4 : ∀ p ∈ new_articles, ∀ q ∈ rows, p.id = q.id → p.created_at = q.created_at) :
    ((get_smart_content_for_section now (.ok rows) s new_articles).map Post.id).Nodup := by
  have hsortnd : ((sortByCreatedDesc (rows.filter (fallbackWindow now s))).map Post.id).Nodup :=
    (((sortByCreatedDesc_perm _).map Post.id).nodup_iff).mpr h2
  have hexnd : ∀ k : Nat,
      (((get_existing_section_articles now (.ok rows) s).take k).map Post.id).Nodup := by
    intro k
    have hsub : ((get_existing_section_articles now (.ok rows) s).take k).Sublist
        (sortByCreatedDesc (rows.filter (fallbackWindow now s))) :=
      (List.take_sublist _ _).trans (List.take_sublist _ _)
    exact (hsub.map Post.id).nodup hsortnd
  have hexmem : ∀ k : Nat, ∀ q ∈ (get_existing_section_articles now (.ok rows) s).take k,
      q ∈ rows.filter (fallbackWindow now s) := by
    intro k q hq
    exact mem_sortByCreatedDesc.mp
      (List.mem_of_mem_take (List.mem_of_mem_take hq))
  have hdisj : ∀ k : Nat, ∀ x, x ∈ new_articles.map Post.id →
      x ∈ ((get_existing_section_articles now (.ok rows) s).take k).map Post.id → False := by
    intro k x hxn hxe
    obtain ⟨p, hp, hpid⟩ := List.mem_map.mp hxn
    obtain ⟨q, hq, hqid⟩ := List.mem_map.mp hxe
    have hqf := hexmem k q hq
    have hqrows : q ∈ rows := List.mem_of_mem_filter hqf
    have hqwin : fallbackWindow now s q = true := List.of_mem_filter hqf
    have hqold : q.created_at < exclusionCutoff now := by
      simp only [fallbackWindow, Bool.and_eq_true, decide_eq_true_eq] at hqwin
      exact hqwin.1.2
    have hpnew := h3 p hp
    have heq := h4 p hp q hqrows (by rw [hpid, hqid])
    omega
  unfold get_smart_content_for_section
  by_cases ht : section_thresholds s ≤ new_articles.length
  · rw [if_pos ht]
    exact ((List.take_sublist _ _).map Post.id).nodup h1
  · rw [if_neg ht]
    by_cases h2e : new_articles.isEmpty
    · have hnil : new_articles = [] := List.isEmpty_iff.mp h2e
      subst hnil
      simp only [List.isEmpty_nil, not_true, if_false]
      by_cases h3e : (get_existing_section_articles now (.ok rows) s).isEmpty
      · rw [if_neg (by simp [h3e])]
        simp
      · rw [if_pos (by simp [h3e])]
        exact hexnd _
    · rw [if_pos (by simp [h2e])]
      rw [List.map_append]
      refine List.Nodup.append h1 (hexnd _) ?_
      intro x hxn hxe
      exact hdisj _ x hxn hxe

/-- C6 witness: one fresh new post (id 9) mixed with one in-window store
post (id 1) yields a duplicate-free result. -/
theorem C6_no_double_count_witness :
    (([⟨9, "ma", "published", 999999⟩] : List Post).map Post.id).Nodup
    ∧ ((([⟨1, "ma", "published", 989200⟩] : List Post).filter
          (fallbackWindow 1000000 "ma")).map Post.id).Nodup
    ∧ (∀ p ∈ ([⟨9, "ma", "published", 999999⟩] : List Post),
        exclusionCutoff 1000000 ≤ p.created_at)
    ∧ (∀ p ∈ ([⟨9, "ma", "published", 999999⟩] : List Post),
        ∀ q ∈ ([⟨1, "ma", "published", 989200⟩] : List Post),
          p.id = q.id → p.created_at = q.created_at)
    ∧ ((get_smart_content_for_section 1000000
          (.ok [⟨1, "ma", "published", 989200⟩]) "ma"
          [⟨9, "ma", "published", 999999⟩]).map Post.id).Nodup := by
  refine ⟨by decide, by decide, by decide, by decide, ?_⟩
  exact C6_no_double_count 1000000 [⟨1, "ma", "published", 989200⟩] "ma"
    [⟨9, "ma", "published", 999999⟩] (by decide) (by decide) (by decide) (by decide)

/-- C9: a Delivery in a terminal state (sent or failed) is untouched by a
worker pass: assuming the table's ids are unique, the record is still
present and every record carrying its id is that unchanged record. -/
theorem C9_terminal_frozen (webSink : List String → Bool) (xSink : String → Bool)
    (table : List Delivery) (d : Delivery)
    (hnodup : (table.map Delivery.id).Nodup)
    (hmem : d ∈ table)
    (hterm : d.status = "sent" ∨ d.status = "failed") :
    d ∈ process_all_deliveries webSink xSink table
    ∧ ∀ r ∈ process_all_deliveries webSink xSink table, r.id = d.id → r = d := by
  have hne : ∀ e ∈ get_queued_deliveries table, e.id ≠ d.id := by
    intro e he
    have hq : e.status = "queued" := by
      have := List.of_mem_filter he
      simpa using this
    have hetab : e ∈ table := List.mem_of_mem_filter he
    intro hid
    have : e = d := List.inj_on_of_nodup_map hnodup hetab hmem hid
    rw [this] at hq
    rcases hterm with h | h <;> rw [h] at hq <;> exact absurd hq (by decide)
  have key : ∀ (L : List Delivery) (t : List Delivery),
      (∀ e ∈ L, e.id ≠ d.id) →
      d ∈ t → (∀ r ∈ t, r.id = d.id → r = d) →
      d ∈ L.foldl (process_delivery webSink xSink) t
        ∧ ∀ r ∈ L.foldl (process_delivery webSink xSink) t, r.id = d.id → r = d := by
    intro L
    induction L with
    | nil => intro t _ hd hall; exact ⟨hd, hall⟩
    | cons e rest ih =>
      intro t hL hd hall
      have heid : e.id ≠ d.id := hL e (List.mem_cons_self e rest)
      have step : d ∈ process_delivery webSink xSink t e
          ∧ ∀ r ∈ process_delivery webSink xSink t e, r.id = d.id → r = d := by
        have upd : ∀ (st : String) (err : Option String),
            d ∈ update_delivery_status t e.id st err
            ∧ ∀ r ∈ update_delivery_status t e.id st err, r.id = d.id → r = d := by
          intro st err
          unfold update_delivery_status
          cases hh : (t.filter (fun r => r.id == e.id)).head? with
          | none => exact ⟨hd, hall⟩
          | some row =>
            constructor
            · refine List.mem_map.mpr ⟨d, hd, ?_⟩
              rw [if_neg (by simpa using fun hc => heid (by rw [hc]))]
            · intro r hr hrid
              obtain ⟨r0, hr0, hr0eq⟩ := List.mem_map.mp hr
              by_cases hc : r0.id == e.id
              · rw [if_pos hc] at hr0eq
                exfalso
                have : r.id = r0.id := by rw [← hr0eq]
                rw [hrid] at this
                exact heid (by rw [← (beq_iff_eq.mp hc), ← this])
              · rw [if_neg hc] at hr0eq
                rw [← hr0eq] at hrid ⊢
                exact hall r0 hr0 hrid
        unfold process_delivery
        cases hch : (if e.channel == "web" then some (process_web_delivery webSink e)
            else if e.channel == "x" then some (process_x_delivery xSink e)
            else none) with
        | none => exact ⟨hd, hall⟩
        | some success =>
          by_cases hs : success
          · simp only [hs, if_pos]
            exact upd "sent" none
          · simp only [hs, if_neg, Bool.false_eq_true, if_false]
            by_cases ha : 5 ≤ e.attempts
            · rw [if_pos ha]
              exact upd "failed" (some "Max retries exceeded")
            · rw [if_neg ha]
              exact upd "queued" (some "Retry scheduled")
      exact ih (process_delivery webSink xSink t e)
        (fun x hx => hL x (List.mem_cons_of_mem e hx)) step.1 step.2
  exact key (get_queued_deliveries table) table hne hmem
    (fun r hr hrid => List.inj_on_of_nodup_map hnodup hr hmem hrid)

/-- C9 witness: a failed record (id 2) coexisting with a queued one (id 1)
is untouched by the pass. -/
theorem C9_terminal_frozen_witness :
    (([⟨1, "web", { paths := ["/"] }, "queued", 0, none⟩,
       ⟨2, "web", { paths := ["/"] }, "failed", 6, none⟩] : List Delivery).map
        Delivery.id).Nodup
    ∧ (⟨2, "web", { paths := ["/"] }, "failed", 6, none⟩ : Delivery) ∈
        ([⟨1, "web", { paths := ["/"] }, "queued", 0, none⟩,
          ⟨2, "web", { paths := ["/"] }, "failed", 6, none⟩] : List Delivery)
    ∧ ((⟨2, "web", { paths := ["/"] }, "failed", 6, none⟩ : Delivery).status = "sent"
        ∨ (⟨2, "web", { paths := ["/"] }, "failed", 6, none⟩ : Delivery).status = "failed")
    ∧ (⟨2, "web", { paths := ["/"] }, "failed", 6, none⟩ : Delivery) ∈
        process_all_deliveries (fun _ => true) (fun _ => true)
          [⟨1, "web", { paths := ["/"] }, "queued", 0, none⟩,
           ⟨2, "web", { paths := ["/"] }, "failed", 6, none⟩] := by
  refine ⟨by decide, by decide, by decide, ?_⟩
  exact (C9_terminal_frozen (fun _ => true) (fun _ => true) _ _
    (by decide) (by decide) (by decide)).1

theorem singleton_web_failure_pass (webSink : List String → Bool) (xSink : String → Bool)
    (d : Delivery) (hst : d.status = "queued") (hch : d.channel = "web")
    (hfailres : process_web_delivery webSink d = false) :
    process_all_deliveries webSink xSink [d]
      = [{ d with
            status := if 5 ≤ d.attempts then "failed" else "queued",
            attempts := d.attempts + 1,
            last_error := some (if 5 ≤ d.attempts then "Max retries exceeded"
                                else "Retry scheduled") }] := by
  have hq : get_queued_deliveries [d] = [d] := by
    simp [get_queued_deliveries, hst]
  unfold process_all_deliveries
  rw [hq]
  simp only [List.foldl_cons, List.foldl_nil]
  unfold process_delivery
  rw [hch]
  simp only [beq_self_eq_true, if_true, hfailres, Bool.false_eq_true, if_false]
  have hupd : ∀ (st : String) (err : String),
      update_delivery_status [d] d.id st (some err)
        = [{ d with status := st, attempts := d.attempts + 1, last_error := some err }] := by
    intro st err
    unfold update_delivery_status
    simp
  by_cases ha : 5 ≤ d.attempts
  · rw [if_pos ha, hupd, if_pos ha, if_pos ha, hch]
  · rw [if_neg ha, hupd, if_neg ha, if_neg ha, hch]

/-- C2 counterexample: a queued web Delivery with attempts=4 whose sink
fails is re-queued with attempts=5, not marked failed as the claim states. -/
theorem C2_counterexample :
    ((process_all_deliveries (fun _ => false) (fun _ => false)
        [⟨1, "web", { paths := ["/"] }, "queued", 4, none⟩]).map Delivery.status
      = ["queued"])
    ∧ ((process_all_deliveries (fun _ => false) (fun _ => false)
        [⟨1, "web", { paths := ["/"] }, "queued", 4, none⟩]).map Delivery.attempts
      = [5])
    ∧ ¬ ((process_all_deliveries (fun _ => false) (fun _ => false)
        [⟨1, "web", { paths := ["/"] }, "queued", 4, none⟩]).map Delivery.status
      = ["failed"]) := by
  refine ⟨by decide, by decide, by decide⟩

/-- C2 amended: the retry check compares the attempt counter before the
increment against 5, so a queued Delivery that fails with fewer than 5
accumulated attempts (in particular the 5th failure, at attempts=4) is
re-queued with attempts incremented; the failure with 5 accumulated
attempts (the 6th) sets status failed with attempts=6, and a subsequent
worker pass does not touch the record. -/
theorem C2_amended_sixth_failure (webSink : List String → Bool)
    (xSink : String → Bool) (d : Delivery)
    (hst : d.status = "queued") (hch : d.channel = "web")
    (hpaths : d.payload.paths.isEmpty = false)
    (hfail : webSink d.payload.paths = false) :
    process_all_deliveries webSink xSink [d]
      = [{ d with
            status := if 5 ≤ d.attempts then "failed" else "queued",
            attempts := d.attempts + 1,
            last_error := some (if 5 ≤ d.attempts then "Max retries exceeded"
                                else "Retry scheduled") }]
    ∧ (d.attempts = 5 →
        process_all_deliveries webSink xSink
            (process_all_deliveries webSink xSink [d])
          = process_all_deliveries webSink xSink [d]) := by
  have hres : process_web_delivery webSink d = false := by
    unfold process_web_delivery
    rw [if_neg (by simp [hpaths])]
    exact hfail
  have hpass := singleton_web_failure_pass webSink xSink d hst hch hres
  refine ⟨hpass, ?_⟩
  intro ha5
  rw [hpass]
  have h5 : (5 ≤ d.attempts) = True := by simp [ha5]
  simp only [h5, if_true]
  simp [process_all_deliveries, get_queued_deliveries]

/-- C2 witness: the concrete trajectory at attempts=5. -/
theorem C2_amended_sixth_failure_witness :
    ((⟨1, "web", { paths := ["/"] }, "queued", 5, none⟩ : Delivery).status = "queued")
    ∧ ((⟨1, "web", { paths := ["/"] }, "queued", 5, none⟩ : Delivery).channel = "web")
    ∧ ((⟨1, "web", { paths := ["/"] }, "queued", 5, none⟩ :
          Delivery).payload.paths.isEmpty = false)
    ∧ ((fun _ => false : List String → Bool)
        (⟨1, "web", { paths := ["/"] }, "queued", 5, none⟩ : Delivery).payload.paths = false)
    ∧ process_all_deliveries (fun _ => false) (fun _ => false)
        [⟨1, "web", { paths := ["/"] }, "queued", 5, none⟩]
      = [{ (⟨1, "web", { paths := ["/"] }, "queued", 5, none⟩ : Delivery) with
            status := if 5 ≤ (⟨1, "web", { paths := ["/"] }, "queued", 5,
                none⟩ : Delivery).attempts then "failed" else "queued",
            attempts := (⟨1, "web", { paths := ["/"] }, "queued", 5,
                none⟩ : Delivery).attempts + 1,
            last_error := some (if 5 ≤ (⟨1, "web", { paths := ["/"] }, "queued", 5,
                none⟩ : Delivery).attempts then "Max retries exceeded"
                else "Retry scheduled") }] := by
  refine ⟨by decide, by decide, by decide, by decide, ?_⟩
  exact (C2_amended_sixth_failure (fun _ => false) (fun _ => false)
    ⟨1, "web", { paths := ["/"] }, "queued", 5, none⟩
    (by decide) (by decide) (by decide) (by decide)).1

/-- C4 counterexample: a queued web Delivery with an empty paths payload is
not skipped untouched: the pass increments its attempts counter from 0 to 1,
refuting the claim that attempts and status are unchanged. -/
theorem C4_counterexample :
    ((process_all_deliveries (fun _ => true) (fun _ => true)
        [⟨3, "web", { paths := [] }, "queued", 0, none⟩]).map Delivery.attempts
      = [1])
    ∧ ¬ ((process_all_deliveries (fun _ => true) (fun _ => true)
        [⟨3, "web", { paths := [] }, "queued", 0, none⟩]).map Delivery.attempts
      = [0]) := by
  refine ⟨by decide, by decide⟩

/-- C4 amended: a queued web Delivery whose payload has no paths is logged
but treated as a failed attempt: the worker increments its attempts counter
and re-queues it (or marks it failed once the counter has reached 5),
rather than skipping it without consuming an attempt. -/
theorem C4_amended_invalid_payload_consumes_attempt (webSink : List String → Bool)
    (xSink : String → Bool) (d : Delivery)
    (hst : d.status = "queued") (hch : d.channel = "web")
    (hpaths : d.payload.paths = []) :
    process_all_deliveries webSink xSink [d]
      = [{ d with
            status := if 5 ≤ d.attempts then "failed" else "queued",
            attempts := d.attempts + 1,
            last_error := some (if 5 ≤ d.attempts then "Max retries exceeded"
                                else "Retry scheduled") }] := by
  have hres : process_web_delivery webSink d = false := by
    unfold process_web_delivery
    rw [if_pos (by simp [hpaths])]
  exact singleton_web_failure_pass webSink xSink d hst hch hres

/-- C4 witness: the concrete empty-paths record at attempts=0. -/
theorem C4_amended_invalid_payload_witness :
    ((⟨3, "web", { paths := [] }, "queued", 0, none⟩ : Delivery).status = "queued")
    ∧ ((⟨3, "web", { paths := [] }, "queued", 0, none⟩ : Delivery).channel = "web")
    ∧ ((⟨3, "web", { paths := [] }, "queued", 0, none⟩ : Delivery).payload.paths = [])
    ∧ process_all_deliveries (fun _ => true) (fun _ => true)
        [⟨3, "web", { paths := [] }, "queued", 0, none⟩]
      = [{ (⟨3, "web", { paths := [] }, "queued", 0, none⟩ : Delivery) with
            status := if 5 ≤ (⟨3, "web", { paths := [] }, "queued", 0,
                none⟩ : Delivery).attempts then "failed" else "queued",
            attempts := (⟨3, "web", { paths := [] }, "queued", 0,
                none⟩ : Delivery).attempts + 1,
            last_error := some (if 5 ≤ (⟨3, "web", { paths := [] }, "queued", 0,
                none⟩ : Delivery).attempts then "Max retries exceeded"
                else "Retry scheduled") }] := by
  refine ⟨by decide, by decide, by decide, ?_⟩
  exact C4_amended_invalid_payload_consumes_attempt (fun _ => true) (fun _ => true)
    ⟨3, "web", { paths := [] }, "queued", 0, none⟩ (by decide) (by decide) (by decide)

theorem should_tweet_iff (x_enabled : Bool) (p : PostData) :
    should_tweet_post x_enabled p = true
      ↔ (x_enabled = true ∧ p.article_slug ≠ ""
          ∧ (pyUpper p.origin_type = "SCRAPED" ∨ pyUpper p.origin_type = "PEWIRE")) := by
  unfold should_tweet_post
  cases x_enabled with
  | false => simp
  | true =>
    simp only [Bool.not_true, Bool.false_eq_true, if_false, true_and]
    by_cases h1 : pyUpper p.origin_type == "SCRAPED"
    · by_cases h2 : p.article_slug == ""
      · simp_all
      · simp_all
    · by_cases h3 : pyUpper p.origin_type == "PEWIRE"
      · by_cases h2 : p.article_slug == ""
        · simp_all
        · simp_all
      · simp_all

/-- C3 counterexample: an otherwise-eligible post (origin SCRAPED, non-empty
article_slug) with the social feature flag off yields no social delivery at
all, refuting the claim that the factory still constructs it with status
held. -/
theorem C3_counterexample :
    create_x_delivery false
        { title := "T", summary := "", section_slug := "ma",
          origin_type := "SCRAPED", article_slug := "deal-1",
          source_url := "https://src" } = none
    ∧ (process_deliveries false "post-1"
        { title := "T", summary := "", section_slug := "ma",
          origin_type := "SCRAPED", article_slug := "deal-1",
          source_url := "https://src" }).map DeliverySpec.channel = ["web"] := by
  refine ⟨by decide, by decide⟩

/-- C3 amended: when the social feature flag is off the factory constructs
no social delivery at all (the held status in create_x_delivery is dead
code, since _should_tweet_post already requires the flag); when the flag is
on, any constructed social payload carries status queued, and the persisted
delivery record's status is always queued. -/
theorem C3_amended_held_unreachable (p : PostData) (post_id channel : String)
    (payload : Payload) :
    create_x_delivery false p = none
    ∧ (create_x_delivery true p = none
        ∨ (create_x_delivery true p).map Payload.status = some "queued")
    ∧ (insert_delivery_row post_id channel payload).status = "queued" := by
  refine ⟨?_, ?_, rfl⟩
  · unfold create_x_delivery
    rw [if_pos]
    simp [should_tweet_post]
  · by_cases h : should_tweet_post true p
    · right
      unfold create_x_delivery
      rw [if_neg (by simp [h])]
      simp
    · left
      unfold create_x_delivery
      rw [if_pos (by simp [h])]

/-- C5: build_deliveries contains a social delivery exactly when the
feature flag is on, the article slug is non-empty and the (upper-cased)
origin type is SCRAPED or PEWIRE; in every other case the result is exactly
the single site-revalidation delivery. -/
theorem C5_eligibility_gating (x_enabled : Bool) (post_id : String) (p : PostData) :
    ((∃ ds ∈ process_deliveries x_enabled post_id p, ds.channel = "x")
        ↔ (x_enabled = true ∧ p.article_slug ≠ ""
            ∧ (pyUpper p.origin_type = "SCRAPED" ∨ pyUpper p.origin_type = "PEWIRE")))
    ∧ (¬ (x_enabled = true ∧ p.article_slug ≠ ""
            ∧ (pyUpper p.origin_type = "SCRAPED" ∨ pyUpper p.origin_type = "PEWIRE")) →
        process_deliveries x_enabled post_id p
          = [{ channel := "web", payload := create_web_delivery p }]) := by
  have hiff := should_tweet_iff x_enabled p
  unfold process_deliveries
  by_cases h : should_tweet_post x_enabled p
  · have hx : ∃ pl, create_x_delivery x_enabled p = some pl := by
      unfold create_x_delivery
      rw [if_neg (by simp [h])]
      exact ⟨_, rfl⟩
    obtain ⟨pl, hpl⟩ := hx
    rw [hpl]
    constructor
    · constructor
      · intro _
        exact hiff.mp h
      · intro _
        exact ⟨⟨"x", pl⟩, by simp⟩
    · intro hc
      exact absurd (hiff.mp h) hc
  · have hx : create_x_delivery x_enabled p = none := by
      unfold create_x_delivery
      rw [if_pos (by simp [h])]
    rw [hx]
    constructor
    · constructor
      · rintro ⟨ds, hds, hch⟩
        simp only [List.mem_singleton] at hds
        rw [hds] at hch
        simp at hch
      · intro hr
        exact absurd (hiff.mpr hr) h
    · intro _
      rfl

/-- C5 witness: an RSS post without a slug, flag on, yields only the web
delivery. -/
theorem C5_eligibility_gating_witness :
    (¬ ((true : Bool) = true
        ∧ ({ title := "T", summary := "", section_slug := "ma",
              origin_type := "FED", article_slug := "",
              source_url := "https://src" } : PostData).article_slug ≠ ""
        ∧ (pyUpper ({ title := "T", summary := "", section_slug := "ma",
                        origin_type := "FED", article_slug := "",
                        source_url := "https://src" } : PostData).origin_type = "SCRAPED"
           ∨ pyUpper ({ title := "T", summary := "", section_slug := "ma",
                          origin_type := "FED", article_slug := "",
                          source_url := "https://src" } : PostData).origin_type = "PEWIRE")))
    ∧ process_deliveries true "post-1"
        { title := "T", summary := "", section_slug := "ma",
          origin_type := "FED", article_slug := "", source_url := "https://src" }
      = [{ channel := "web",
           payload := create_web_delivery
             { title := "T", summary := "", section_slug := "ma",
               origin_type := "FED", article_slug := "",
               source_url := "https://src" } }] := by
  refine ⟨by decide, ?_⟩
  exact (C5_eligibility_gating true "post-1"
    { title := "T", summary := "", section_slug := "ma", origin_type := "FED",
      article_slug := "", source_url := "https://src" }).2 (by decide)

theorem map_lower_after_upper (l : List Char) :
    l.map (fun c => pyLowerChar (pyUpperChar c)) = l.map pyLowerChar := by
  induction l with
  | nil => rfl
  | cons a rest ih => simp [pyLowerChar_pyUpperChar, ih]

theorem pyLower_append_upper (u t : String) :
    pyLower (pyUpper u ++ pyUpper t) = pyLower (u ++ t) := by
  unfold pyLower pyUpper
  apply congrArg String.mk
  simp only [String.data_append, List.map_append, List.map_map]
  have hu := map_lower_after_upper u.data
  have ht := map_lower_after_upper t.data
  simp only [Function.comp_def]
  rw [hu, ht]

theorem dropWhile_replicate_space (n : Nat) (l : List Char) :
    (List.replicate n ' ' ++ l).dropWhile isPySpace = l.dropWhile isPySpace := by
  induction n with
  | zero => simp
  | succ k ih =>
    simp only [List.replicate_succ, List.cons_append, List.dropWhile_cons]
    rw [if_pos (by decide)]
    exact ih

theorem pyStripList_prepend_spaces (n : Nat) (l : List Char) :
    pyStripList (List.replicate n ' ' ++ l) = pyStripList l := by
  unfold pyStripList
  rw [dropWhile_replicate_space]

theorem pyStripList_append_spaces (n : Nat) (l : List Char) :
    pyStripList (l ++ List.replicate n ' ') = pyStripList l := by
  unfold pyStripList
  rcases h : l.dropWhile isPySpace with _ | ⟨a, rest⟩
  · have hrep : (List.replicate n ' ').dropWhile isPySpace = [] := by
      have := dropWhile_replicate_space n ([] : List Char)
      simpa using this
    rw [List.dropWhile_append, h]
    simp [hrep]
  · rw [List.dropWhile_append, h]
    simp only [List.isEmpty_cons, Bool.false_eq_true, if_false]
    rw [List.reverse_append, List.reverse_replicate, dropWhile_replicate_space]

/-- C7 counterexample: the strip is applied to the concatenation of url and
title only, so whitespace at the url/title boundary survives into the
hashed content and changes the digest, refuting the boundary-whitespace
half of the claim. -/
theorem C7_counterexample :
    generate_content_hash "a " "b" ≠ generate_content_hash "a" "b" := by
  decide

/-- C7 amended: the fingerprint is case-insensitive
(fingerprint(url, title) = fingerprint(url.upper(), title.upper())), and it
is invariant under whitespace added before the url or after the title; but
whitespace at the url/title boundary is part of the hashed content and is
not trimmed. -/
theorem C7_amended_fingerprint (url title : String) (n : Nat) :
    generate_content_hash url title
        = generate_content_hash (pyUpper url) (pyUpper title)
    ∧ generate_content_hash (String.mk (List.replicate n ' ') ++ url) title
        = generate_content_hash url title
    ∧ generate_content_hash url (title ++ String.mk (List.replicate n ' '))
        = generate_content_hash url title := by
  refine ⟨?_, ?_, ?_⟩
  · unfold generate_content_hash
    rw [pyLower_append_upper]
  · unfold generate_content_hash
    apply congrArg (fun s => hexdigest (sha256Words (utf8Bytes s)))
    unfold pyStrip pyLower
    apply congrArg String.mk
    simp only [String.data_append, List.map_append, List.map_replicate]
    have hsp : pyLowerChar ' ' = ' ' := rfl
    rw [hsp, List.append_assoc]
    exact pyStripList_prepend_spaces n _
  · unfold generate_content_hash
    apply congrArg (fun s => hexdigest (sha256Words (utf8Bytes s)))
    unfold pyStrip pyLower
    apply congrArg String.mk
    simp only [String.data_append, List.map_append, List.map_replicate]
    have hsp : pyLowerChar ' ' = ' ' := rfl
    rw [hsp, ← List.append_assoc]
    exact pyStripList_append_spaces n _

/-- C10: when the store query inside the duplicate check raises,
post_exists reports False and insert_post proceeds exactly as if the store
had reported no duplicate, so a store outage during dedup admits the post
and the caller cannot distinguish it from a normal admit. -/
theorem C10_dedup_outage_admits (ops : StoreOps) (p : PostInput)
    (hfail : ops.selectIdsByHash (generate_content_hash p.source_url p.title)
        = .error ()) :
    post_exists ops (generate_content_hash p.source_url p.title) = false
    ∧ insert_post ops p
        = insert_post { ops with selectIdsByHash := fun _ => .ok [] } p := by
  constructor
  · unfold post_exists
    rw [hfail]
  · unfold insert_post
    have h1 : post_exists ops (generate_content_hash p.source_url p.title) = false := by
      unfold post_exists
      rw [hfail]
    have h2 : post_exists { ops with selectIdsByHash := fun _ => .ok ([] : List String) }
        (generate_content_hash p.source_url p.title) = false := by
      unfold post_exists
      simp
    rw [h1, h2]

/-- C10 witness: a store whose dedup query raises still inserts and returns
the new id, indistinguishably from a no-duplicate store. -/
theorem C10_dedup_outage_admits_witness :
    ((⟨fun _ => .error (), fun _ => .ok [⟨"id-1"⟩]⟩ : StoreOps).selectIdsByHash
        (generate_content_hash "https://x.com/a" "Deal") = .error ())
    ∧ post_exists ⟨fun _ => .error (), fun _ => .ok [⟨"id-1"⟩]⟩
        (generate_content_hash "https://x.com/a" "Deal") = false
    ∧ insert_post ⟨fun _ => .error (), fun _ => .ok [⟨"id-1"⟩]⟩
        ⟨"https://x.com/a", "Deal"⟩
      = insert_post ⟨fun _ => .ok [], fun _ => .ok [⟨"id-1"⟩]⟩
          ⟨"https://x.com/a", "Deal"⟩
    ∧ insert_post ⟨fun _ => .error (), fun _ => .ok [⟨"id-1"⟩]⟩
        ⟨"https://x.com/a", "Deal"⟩ = some "id-1" := by
  refine ⟨rfl, ?_, ?_, rfl⟩
  · exact (C10_dedup_outage_admits
      ⟨fun _ => .error (), fun _ => .ok [⟨"id-1"⟩]⟩ ⟨"https://x.com/a", "Deal"⟩ rfl).1
  · exact (C10_dedup_outage_admits
      ⟨fun _ => .error (), fun _ => .ok [⟨"id-1"⟩]⟩ ⟨"https://x.com/a", "Deal"⟩ rfl).2

end USFM
